import Mathlib

/-!
Shallow embedding of `src/chat_analyzer.py` (a streamlit chat-analysis
dashboard).  The pipeline is: raw JSON records → `convert_to_df`
(timestamp parsing with coercion of failures, drop of unparsable rows,
fill of missing `type`) → sidebar `FilterSpec` → boolean `mask` →
`filtered_df` → metrics (`totalMessages`, `replyCount`, `avg_length`,
`messages_per_day`) and dashboard-level `min_date`/`max_date`.

Library behaviour that the source file delegates to pandas is embedded
from the pandas documentation, restricted to the value shapes this
development exercises; each such definition carries a doc comment saying
exactly which pandas behaviour it embeds and on which fragment it is
faithful.
-/

namespace ChatAnalyzer

/-- Gregorian leap-year test, as used by the calendar arithmetic behind
`pandas.to_datetime`. -/
def isLeap (y : Nat) : Bool :=
  (y % 4 == 0 && y % 100 != 0) || y % 400 == 0

/-- Number of days in month `m` of year `y` (months are 1-based). -/
def daysInMonth (y m : Nat) : Nat :=
  if m = 2 then (if isLeap y then 29 else 28)
  else if m = 4 ∨ m = 6 ∨ m = 9 ∨ m = 11 then 30
  else 31

/-- Days since the Unix epoch 1970-01-01 of the civil date `(year, month,
day)`; the standard days-from-civil calendar algorithm, written with floor
division so it is total on all inputs. -/
def daysFromCivil (year month day : Nat) : Int :=
  let y : Int := if month ≤ 2 then (year : Int) - 1 else (year : Int)
  let era : Int := Int.fdiv y 400
  let yoe : Int := y - era * 400
  let mp : Int := if month ≤ 2 then (month : Int) + 9 else (month : Int) - 3
  let doy : Int := Int.fdiv (153 * mp + 2) 5 + (day : Int) - 1
  let doe : Int := yoe * 365 + Int.fdiv yoe 4 - Int.fdiv yoe 100 + doy
  era * 146097 + doe - 719468

/-- Value of a decimal digit character, `none` on a non-digit. -/
def digitVal (c : Char) : Option Nat :=
  if c.isDigit then some (c.toNat - 48) else none

/-- Two decimal digits read as a number. -/
def nat2 (a b : Char) : Option Nat := do
  pure ((← digitVal a) * 10 + (← digitVal b))

/-- Four decimal digits read as a number. -/
def nat4 (a b c d : Char) : Option Nat := do
  pure (((← digitVal a) * 10 + (← digitVal b)) * 100 +
        ((← digitVal c) * 10 + (← digitVal d)))

/-- Epoch day number of a civil date, validating month and day-of-month
ranges the way a strict datetime parser does. -/
def mkDate (y m d : Nat) : Option Int :=
  if 1 ≤ m ∧ m ≤ 12 ∧ 1 ≤ d ∧ d ≤ daysInMonth y m then
    some (daysFromCivil y m d)
  else none

/-- UTC offset, in seconds, of an ISO-8601 zone designator: absent (naive,
treated as UTC because the source passes `utc=True`), `Z`, or `±HH:MM`. -/
def parseOffset : List Char → Option Int
  | [] => some 0
  | ['Z'] => some 0
  | ['+', a, b, ':', c, d] => do
      let h ← nat2 a b
      let m ← nat2 c d
      if h < 24 ∧ m < 60 then some ((h : Int) * 3600 + (m : Int) * 60) else none
  | ['-', a, b, ':', c, d] => do
      let h ← nat2 a b
      let m ← nat2 c d
      if h < 24 ∧ m < 60 then some (-((h : Int) * 3600 + (m : Int) * 60)) else none
  | _ => none

/-- Embeds, for one string cell, `pd.to_datetime(col, format='ISO8601',
errors='coerce', utc=True)` from `convert_to_df` (src/chat_analyzer.py
line 17): an ISO-8601 timestamp is parsed and normalized to a UTC instant
(returned as seconds since the Unix epoch); a string that does not parse
is coerced to missing (`none`), never an exception.  The ISO-8601 fragment
embedded here is `YYYY-MM-DD`, optionally followed by `THH:MM:SS` and an
optional zone designator `Z` or `±HH:MM`; field ranges are validated. -/
def parseTs (s : String) : Option Int :=
  match s.data with
  | y1 :: y2 :: y3 :: y4 :: '-' :: m1 :: m2 :: '-' :: d1 :: d2 :: rest => do
      let y ← nat4 y1 y2 y3 y4
      let mo ← nat2 m1 m2
      let da ← nat2 d1 d2
      let dayNum ← mkDate y mo da
      match rest with
      | [] => some (dayNum * 86400)
      | 'T' :: h1 :: h2 :: ':' :: mi1 :: mi2 :: ':' :: s1 :: s2 :: tail => do
          let h ← nat2 h1 h2
          let mi ← nat2 mi1 mi2
          let se ← nat2 s1 s2
          if h < 24 ∧ mi < 60 ∧ se < 60 then do
            let off ← parseOffset tail
            some (dayNum * 86400 + ((h * 3600 + mi * 60 + se : Nat) : Int) - off)
          else none
      | _ => none
  | _ => none

/-- One raw JSON message record, the element shape of the input `messages`
array: a `timestamp` string, an `author` string, an optional `content`
string (a missing cell is `none`) and an optional `type` string. -/
structure RawRecord where
  timestamp : String
  author : String
  content : Option String
  type : Option String
  deriving DecidableEq, Repr

/-- One row of the normalized table produced by `convert_to_df`: `ts` is
the parsed UTC instant in epoch seconds; `content` and `type` stay
nullable cells as in the DataFrame. -/
structure Row where
  ts : Int
  author : String
  content : Option String
  type : Option String
  deriving DecidableEq, Repr

/-- Embeds `convert_to_df` (src/chat_analyzer.py lines 11-26): parse the
timestamp column with coercion of failures to missing, drop the rows whose
timestamp is missing (`dropna(subset=['timestamp'])`), then fill missing
`type` cells with `"Default"` (`fillna('Default')`).  The `Option`
codomain mirrors the `except` branch that returns `None` after showing an
error and a sample of offending values; because `errors='coerce'` turns
every individual parse failure into a missing value instead of raising,
that branch is unreachable for string-valued timestamp cells, so on every
`RawRecord` list the result is `some`. -/
def convert_to_df (records : List RawRecord) : Option (List Row) :=
  some (((records.filterMap fun r =>
      (parseTs r.timestamp).map fun t =>
        { ts := t, author := r.author, content := r.content, type := r.type : Row }).map
    fun row => { row with type := some (row.type.getD "Default") }))

/-- Calendar date (epoch day number) of a UTC instant, embedding
`df['timestamp'].dt.date`. -/
def dateOf (t : Int) : Int := Int.fdiv t 86400

/-- The sidebar filter state of one interaction: inclusive date range (as
epoch day numbers), selected type, selected author, search string. -/
structure FilterSpec where
  startDate : Int
  endDate : Int
  selectedType : String
  selectedAuthor : String
  searchTerm : String
  deriving DecidableEq, Repr

/-- Case-insensitive single-character match of one regex atom: `.` matches
any character, any other pattern character matches itself up to case
(`re.IGNORECASE`). -/
def charMatch (p c : Char) : Bool :=
  p == '.' || p.toLower == c.toLower

/-- Positional match of a literal/dot pattern against a prefix of the
text. -/
def matchHere : List Char → List Char → Bool
  | [], _ => true
  | _ :: _, [] => false
  | p :: ps, c :: cs => charMatch p c && matchHere ps cs

/-- Embeds Python `re.search` with `re.IGNORECASE` (the engine behind
`Series.str.contains` with its default `regex=True`), restricted to
patterns built from literal characters and the metacharacter `.`: the
pattern must match at some position of the text.  Patterns using other
regex metacharacters are outside the embedded fragment and are not used by
any theorem below. -/
def reSearch (pat : List Char) : List Char → Bool
  | [] => matchHere pat []
  | c :: cs => matchHere pat (c :: cs) || reSearch pat cs

/-- Embeds `df['content'].str.contains(search_term, case=False, na=False)`
(src/chat_analyzer.py line 98): a missing content cell yields `False`
(`na=False`); otherwise the search term is a regex searched
case-insensitively in the content. -/
def strContains (content : Option String) (pat : String) : Bool :=
  match content with
  | none => false
  | some s => reSearch pat.data s.data

/-- Embeds the filter mask of src/chat_analyzer.py lines 92-98: the date
range test, then three conditional conjuncts added only when the
corresponding sidebar control is active (`type` and `author` differ from
`'All'`, `search_term` is non-empty, i.e. truthy). -/
def mask (spec : FilterSpec) (row : Row) : Bool :=
  let m := decide (spec.startDate ≤ dateOf row.ts) &&
           decide (dateOf row.ts ≤ spec.endDate)
  let m := if spec.selectedType != "All" then
             m && (row.type == some spec.selectedType) else m
  let m := if spec.selectedAuthor != "All" then
             m && (row.author == spec.selectedAuthor) else m
  let m := if spec.searchTerm != "" then
             m && strContains row.content spec.searchTerm else m
  m

/-- Embeds `filtered_df = df[mask]` (src/chat_analyzer.py line 99). -/
def filtered_df (df : List Row) (spec : FilterSpec) : List Row :=
  df.filter (mask spec)

/-- Embeds Python `round(x, 0)`-style rounding of a number to the nearest
integer with ties to even (banker's rounding), on exact rationals. -/
def roundHalfEven (q : ℚ) : ℤ :=
  let n := q.floor
  let r := q - (n : ℚ)
  if r < 1 / 2 then n
  else if 1 / 2 < r then n + 1
  else if n % 2 = 0 then n else n + 1

/-- Embeds Python `round(x, 1)`: round to one decimal place, ties to
even. -/
def round1 (q : ℚ) : ℚ :=
  (roundHalfEven (q * 10) : ℚ) / 10

/-- Embeds `len(filtered_df)` (src/chat_analyzer.py line 110), the Total
Messages metric. -/
def totalMessages (rows : List Row) : Nat :=
  rows.length

/-- Embeds `len(filtered_df[filtered_df['type'] == 'Reply'])`
(src/chat_analyzer.py line 112), the Replies metric. -/
def replyCount (rows : List Row) : Nat :=
  (rows.filter fun r => r.type == some "Reply").length

/-- Embeds `round(filtered_df['content'].str.len().mean(), 1)`
(src/chat_analyzer.py line 114): `str.len()` maps a missing content cell
to missing, `.mean()` averages the non-missing lengths and yields NaN on
an empty column, and `round` passes NaN through.  `none` here is that NaN
outcome (rendered by the dashboard, not an exception). -/
def avg_length (rows : List Row) : Option ℚ :=
  let lens : List Nat := rows.filterMap fun r => r.content.map String.length
  if lens.isEmpty then none
  else some (round1 ((lens.sum : ℚ) / (lens.length : ℚ)))

/-- Embeds
`round(len(filtered_df) / len(filtered_df['timestamp'].dt.date.unique()), 1)`
(src/chat_analyzer.py line 117).  The division is a plain Python `/` with
no guard: when the filtered set is empty both operands are `0` and the
expression raises `ZeroDivisionError`; `none` here is that raised
exception (everything else is the computed Messages/Day value). -/
def messages_per_day (rows : List Row) : Option ℚ :=
  let days := (rows.map fun r => dateOf r.ts).dedup.length
  if days = 0 then none
  else some (round1 ((rows.length : ℚ) / (days : ℚ)))

/-- Minimum of an integer column, embedding `Series.min()`: `none` is the
NaT result on an empty column. -/
def colMin (l : List Int) : Option Int :=
  l.foldl (fun acc x =>
    match acc with
    | none => some x
    | some m => some (min m x)) none

/-- Maximum of an integer column, embedding `Series.max()`. -/
def colMax (l : List Int) : Option Int :=
  l.foldl (fun acc x =>
    match acc with
    | none => some x
    | some m => some (max m x)) none

/-- Embeds `min_date = df['timestamp'].min().date()` (src/chat_analyzer.py
line 53).  On an empty normalized table `min()` is NaT and the `.date()` /
downstream date-range computation on NaT raises instead of producing a
date; `none` is that fault. -/
def min_date (df : List Row) : Option Int :=
  (colMin (df.map Row.ts)).map dateOf

/-- Embeds `max_date = df['timestamp'].max().date()` (src/chat_analyzer.py
line 54). -/
def max_date (df : List Row) : Option Int :=
  (colMax (df.map Row.ts)).map dateOf

/-- Date-range conjunct of the mask (src/chat_analyzer.py line 92), split
out as a standalone predicate. -/
def dateCond (spec : FilterSpec) (row : Row) : Bool :=
  decide (spec.startDate ≤ dateOf row.ts) && decide (dateOf row.ts ≤ spec.endDate)

/-- Type conjunct of the mask (src/chat_analyzer.py lines 93-94) as an
unconditional predicate: trivially true when the selected type is
`"All"`. -/
def typeCond (spec : FilterSpec) (row : Row) : Bool :=
  spec.selectedType == "All" || row.type == some spec.selectedType

/-- Author conjunct of the mask (src/chat_analyzer.py lines 95-96) as an
unconditional predicate. -/
def authorCond (spec : FilterSpec) (row : Row) : Bool :=
  spec.selectedAuthor == "All" || row.author == spec.selectedAuthor

/-- Search conjunct of the mask (src/chat_analyzer.py lines 97-98) as an
unconditional predicate. -/
def searchCond (spec : FilterSpec) (row : Row) : Bool :=
  spec.searchTerm == "" || strContains row.content spec.searchTerm

/-- Does `needle` start `haystack`, comparing characters
case-insensitively?  Helper for the spec-side substring predicate. -/
def startsWithCI : List Char → List Char → Bool
  | [], _ => true
  | _ :: _, [] => false
  | n :: ns, h :: hs => n.toLower == h.toLower && startsWithCI ns hs

/-- Case-insensitive contiguous-substring containment, written from the
spec's words "content contains spec.search case-insensitively" — the
spec-side counterpart of `strContains`, for comparison with the code's
regex-based search. -/
def containsSubCI (haystack needle : List Char) : Bool :=
  match haystack with
  | [] => needle.isEmpty
  | _ :: t => startsWithCI needle haystack || containsSubCI t needle

/-- The filter predicate exactly as the spec words it (the claim-C2
reading): date range, type and author equality when not `"All"`, and
case-insensitive *substring* containment of the search term in the
content, a missing content never matching a non-empty search. -/
def specPredicate (spec : FilterSpec) (row : Row) : Bool :=
  dateCond spec row && typeCond spec row && authorCond spec row &&
    (spec.searchTerm == "" ||
      match row.content with
      | none => false
      | some c => containsSubCI c.data spec.searchTerm.data)

/-- The mask with the type conjunct omitted entirely (the spec's "omitting
the type predicate"), otherwise identical in structure to `mask`. -/
def maskNoType (spec : FilterSpec) (row : Row) : Bool :=
  let m := decide (spec.startDate ≤ dateOf row.ts) &&
           decide (dateOf row.ts ≤ spec.endDate)
  let m := if spec.selectedAuthor != "All" then
             m && (row.author == spec.selectedAuthor) else m
  let m := if spec.searchTerm != "" then
             m && strContains row.content spec.searchTerm else m
  m

/-- The mask with the author conjunct omitted entirely. -/
def maskNoAuthor (spec : FilterSpec) (row : Row) : Bool :=
  let m := decide (spec.startDate ≤ dateOf row.ts) &&
           decide (dateOf row.ts ≤ spec.endDate)
  let m := if spec.selectedType != "All" then
             m && (row.type == some spec.selectedType) else m
  let m := if spec.searchTerm != "" then
             m && strContains row.content spec.searchTerm else m
  m

/-- The mask with the search conjunct omitted entirely. -/
def maskNoSearch (spec : FilterSpec) (row : Row) : Bool :=
  let m := decide (spec.startDate ≤ dateOf row.ts) &&
           decide (dateOf row.ts ≤ spec.endDate)
  let m := if spec.selectedType != "All" then
             m && (row.type == some spec.selectedType) else m
  let m := if spec.selectedAuthor != "All" then
             m && (row.author == spec.selectedAuthor) else m
  m

/-- Fixture: the first record of the spec's worked example. -/
def rec1 : RawRecord :=
  { timestamp := "2024-01-01T10:00:00Z", author := "A",
    content := some "hi", type := some "Default" }

/-- Fixture: the second record of the spec's worked example. -/
def rec2 : RawRecord :=
  { timestamp := "2024-01-02T10:00:00Z", author := "B",
    content := some "hello there", type := some "Reply" }

/-- Fixture: a record whose timestamp cannot be parsed. -/
def badRec : RawRecord :=
  { timestamp := "not-a-date", author := "A",
    content := some "x", type := none }

/-- Fixture: the normalized row produced from `rec1` (2024-01-01 is epoch
day 19723). -/
def row1 : Row :=
  { ts := 1704103200, author := "A", content := some "hi",
    type := some "Default" }

/-- Fixture: the normalized row produced from `rec2`. -/
def row2 : Row :=
  { ts := 1704189600, author := "B", content := some "hello there",
    type := some "Reply" }

/-- Fixture: a filter over the example's two days with every optional
constraint inactive. -/
def specAll : FilterSpec :=
  { startDate := 19723, endDate := 19724, selectedType := "All",
    selectedAuthor := "All", searchTerm := "" }

/-- Fixture: the same date range with a search term matching no row. -/
def specNoMatch : FilterSpec :=
  { startDate := 19723, endDate := 19724, selectedType := "All",
    selectedAuthor := "All", searchTerm := "zzz" }

/-- Fixture: the same date range with the regex-metacharacter search
`"."`. -/
def specDot : FilterSpec :=
  { startDate := 19723, endDate := 19724, selectedType := "All",
    selectedAuthor := "All", searchTerm := "." }

theorem mask_eq_conds (spec : FilterSpec) (row : Row) :
    mask spec row =
      (dateCond spec row && typeCond spec row && authorCond spec row &&
        searchCond spec row) := by
  apply Bool.eq_iff_iff.mpr
  unfold mask dateCond typeCond authorCond searchCond
  by_cases ht : spec.selectedType = "All" <;>
    by_cases ha : spec.selectedAuthor = "All" <;>
      by_cases hs : spec.searchTerm = "" <;>
        simp [ht, ha, hs, bne_iff_ne, and_assoc]

theorem convert_all_unparsable (records : List RawRecord)
    (h : ∀ r ∈ records, parseTs r.timestamp = none) :
    convert_to_df records = some [] := by
  unfold convert_to_df
  have hnil : records.filterMap (fun r =>
      (parseTs r.timestamp).map fun t =>
        { ts := t, author := r.author, content := r.content,
          type := r.type : Row }) = [] := by
    rw [List.filterMap_eq_nil_iff]
    intro r hr
    rw [h r hr]
    rfl
  rw [hnil]
  rfl

theorem length_filterMap_eq_countP {α β : Type} (f : α → Option β)
    (l : List α) :
    (l.filterMap f).length = l.countP fun a => (f a).isSome := by
  induction l with
  | nil => rfl
  | cons hd tl ih =>
    cases hf : f hd <;>
      simp [List.filterMap_cons, hf, List.countP_cons, ih]

theorem foldl_opt_isSome (g : Int → Int → Int) (xs : List Int)
    (acc : Option Int) (h : acc.isSome) :
    (xs.foldl (fun a x =>
      match a with
      | none => some x
      | some m => some (g m x)) acc).isSome := by
  induction xs generalizing acc with
  | nil => exact h
  | cons hd tl ih =>
    cases acc with
    | none => simp at h
    | some m => exact ih (some (g m hd)) rfl

theorem colMin_isSome (l : List Int) (h : l ≠ []) : (colMin l).isSome := by
  cases l with
  | nil => exact absurd rfl h
  | cons hd tl => exact foldl_opt_isSome min tl (some hd) rfl

theorem colMax_isSome (l : List Int) (h : l ≠ []) : (colMax l).isSome := by
  cases l with
  | nil => exact absurd rfl h
  | cons hd tl => exact foldl_opt_isSome max tl (some hd) rfl

/-- Claim C1, counterexample: a table and spec whose filtered subset is
empty on which the messages-per-day division is NOT guarded — the total
count is 0, yet `messages_per_day` is the `none` that models the raised
`ZeroDivisionError` (0 divided by 0 distinct dates), so the pipeline does
not degrade gracefully as claimed. -/
theorem C1_counterexample :
    filtered_df [row1] specNoMatch = [] ∧
    totalMessages (filtered_df [row1] specNoMatch) = 0 ∧
    messages_per_day (filtered_df [row1] specNoMatch) = none := by
  refine ⟨by decide, by decide, by decide⟩

/-- Claim C1, amended: for every (table, spec) whose filtered subset is
empty, the total count is 0 and the mean content length is the NaN
"no data" outcome, but messages-per-day is not guarded: the division by
the number of distinct calendar dates is 0/0 and raises
`ZeroDivisionError` (the `none` of `messages_per_day`). -/
theorem C1_amended (df : List Row) (spec : FilterSpec)
    (h : filtered_df df spec = []) :
    totalMessages (filtered_df df spec) = 0 ∧
    avg_length (filtered_df df spec) = none ∧
    messages_per_day (filtered_df df spec) = none := by
  rw [h]
  exact ⟨rfl, rfl, rfl⟩

/-- Witness for `C1_amended` at the empty table and an all-inactive
spec. -/
theorem C1_witness :
    totalMessages (filtered_df [] specAll) = 0 ∧
    avg_length (filtered_df [] specAll) = none ∧
    messages_per_day (filtered_df [] specAll) = none :=
  C1_amended [] specAll rfl

/-- Claim C2, counterexample: with the search term `"."` the code's
filter keeps a row whose content is `"hi"` (pandas `str.contains`
interprets the search as a regular expression, and `.` matches any
character), although `"."` is not a substring of `"hi"` — the spec's
case-insensitive-substring reading of the predicate is false on the
code. -/
theorem C2_counterexample :
    filtered_df [row1] specDot = [row1] ∧
    specPredicate specDot row1 = false := by
  refine ⟨by decide, by decide⟩

/-- Claim C2, amended: a row is in the filtered subset iff it is a row of
the table satisfying: start_date ≤ date(timestamp) ≤ end_date, type
equality whenever spec.type ≠ "All", author equality whenever spec.author
≠ "All", and — whenever the search string is non-empty — a
case-insensitive *regular-expression* search of spec.search in the
content (pandas `str.contains` with its default `regex=True`; a missing
content never matches), which agrees with substring containment only for
metacharacter-free search strings. -/
theorem C2_amended (df : List Row) (spec : FilterSpec) (row : Row) :
    row ∈ filtered_df df spec ↔
      row ∈ df ∧ dateCond spec row = true ∧ typeCond spec row = true ∧
        authorCond spec row = true ∧ searchCond spec row = true := by
  unfold filtered_df
  rw [List.mem_filter, mask_eq_conds]
  simp [and_assoc]

/-- Claim C3, counterexample: normalizing a table consisting only of
records with unparsable timestamps does not fail — `errors='coerce'`
turns each bad value into a missing one and the rows are dropped, so
`convert_to_df` returns an empty table (`some []`), never the `None` of
the error branch, and the session does not halt. -/
theorem C3_counterexample :
    convert_to_df [badRec] = some [] ∧ convert_to_df [badRec] ≠ none := by
  refine ⟨by decide, by decide⟩

/-- Claim C3, amended: an input consisting only of records with
unparsable timestamps does not trigger the error branch; normalization
succeeds and yields the empty normalized table, which then flows into the
rest of the dashboard (the error branch returning `None`, showing a
sample and halting the session is unreachable for string-valued
timestamps because `errors='coerce'` never raises on them). -/
theorem C3_amended (records : List RawRecord)
    (h : ∀ r ∈ records, parseTs r.timestamp = none) :
    convert_to_df records = some [] :=
  convert_all_unparsable records h

/-- Witness for `C3_amended` on a one-record all-unparsable input. -/
theorem C3_witness : convert_to_df [badRec] = some [] :=
  C3_amended [badRec] (by decide)

/-- Claim C4, confirmed: whenever normalization returns a table, every
one of its rows comes from an input record whose timestamp parsed (to a
UTC instant), keeping the record's author and content, with a missing or
null type replaced by `"Default"` (hence no row has a null type); and the
number of rows equals the number of input records whose timestamp parses,
so exactly the unparsable rows are dropped, without error. -/
theorem C4_confirmed (records : List RawRecord) (rows : List Row)
    (h : convert_to_df records = some rows) :
    (∀ row ∈ rows,
      (∃ rec ∈ records, parseTs rec.timestamp = some row.ts ∧
        row.author = rec.author ∧ row.content = rec.content ∧
        row.type = some (rec.type.getD "Default")) ∧ row.type ≠ none) ∧
    rows.length = records.countP (fun r => (parseTs r.timestamp).isSome) := by
  have hrows : rows = (records.filterMap fun r =>
      (parseTs r.timestamp).map fun t =>
        { ts := t, author := r.author, content := r.content,
          type := r.type : Row }).map
      (fun row => { row with type := some (row.type.getD "Default") }) := by
    unfold convert_to_df at h
    exact (Option.some.inj h).symm
  subst hrows
  constructor
  · intro row hrow
    rw [List.mem_map] at hrow
    obtain ⟨row', hrow', hg⟩ := hrow
    rw [List.mem_filterMap] at hrow'
    obtain ⟨rec, hrec, hf⟩ := hrow'
    cases hp : parseTs rec.timestamp with
    | none => rw [hp] at hf; exact absurd hf (by simp)
    | some t =>
      rw [hp] at hf
      simp only [Option.map_some'] at hf
      obtain rfl := Option.some.inj hf
      subst hg
      exact ⟨⟨rec, hrec, hp, rfl, rfl, rfl⟩, by simp⟩
  · rw [List.length_map, length_filterMap_eq_countP]
    simp only [Option.isSome_map']

/-- Witness for `C4_confirmed`: a two-record input where the first
timestamp parses and the second does not. -/
theorem C4_witness :
    (∀ row ∈ ([row1] : List Row),
      (∃ rec ∈ [rec1, badRec], parseTs rec.timestamp = some row.ts ∧
        row.author = rec.author ∧ row.content = rec.content ∧
        row.type = some (rec.type.getD "Default")) ∧ row.type ≠ none) ∧
    ([row1] : List Row).length =
      [rec1, badRec].countP (fun r => (parseTs r.timestamp).isSome) :=
  C4_confirmed [rec1, badRec] [row1] (by decide)

/-- Claim C5, confirmed: the spec's worked example — two records on two
consecutive days, one of type `"Reply"`, filtered over a date range
covering both days with no other constraints — yields total count 2,
reply count 1, mean content length (2+11)/2 = 6.5 and messages-per-day
2/2 = 1. -/
theorem C5_confirmed :
    convert_to_df [rec1, rec2] = some [row1, row2] ∧
    totalMessages (filtered_df [row1, row2] specAll) = 2 ∧
    replyCount (filtered_df [row1, row2] specAll) = 1 ∧
    avg_length (filtered_df [row1, row2] specAll) = some (13 / 2) ∧
    messages_per_day (filtered_df [row1, row2] specAll) = some 1 := by
  have hf : filtered_df [row1, row2] specAll = [row1, row2] := by decide
  have hlens : ([row1, row2].filterMap fun r => r.content.map String.length) =
      [2, 11] := by decide
  have hdates : (([row1, row2].map fun r => dateOf r.ts)).dedup =
      [19723, 19724] := by decide
  have hfloor65 : ((65 : ℚ)).floor = 65 := by decide
  have hfloor10 : ((10 : ℚ)).floor = 10 := by decide
  have hround : round1 ((13 : ℚ) / 2) = 13 / 2 := by
    have h65 : (13 : ℚ) / 2 * 10 = 65 := by norm_num
    unfold round1 roundHalfEven
    rw [h65, hfloor65]
    norm_num
  have hround1 : round1 ((2 : ℚ) / 2) = 1 := by
    have h10 : (2 : ℚ) / 2 * 10 = 10 := by norm_num
    unfold round1 roundHalfEven
    rw [h10, hfloor10]
    norm_num
  refine ⟨by decide, by decide, by decide, ?_, ?_⟩
  · rw [hf]
    simp only [avg_length]
    rw [hlens]
    simpa using hround
  · rw [hf]
    simp only [messages_per_day]
    rw [hdates]
    simpa using hround1

/-- Claim C6, confirmed: filtering and aggregation are pure functions of
`(table, spec)` and filtering is idempotent — re-filtering the filtered
subset with the same spec returns it unchanged, so every aggregate
recomputed from it has the same value. -/
theorem C6_confirmed (df : List Row) (spec : FilterSpec) :
    filtered_df (filtered_df df spec) spec = filtered_df df spec ∧
    totalMessages (filtered_df (filtered_df df spec) spec) =
      totalMessages (filtered_df df spec) ∧
    replyCount (filtered_df (filtered_df df spec) spec) =
      replyCount (filtered_df df spec) ∧
    avg_length (filtered_df (filtered_df df spec) spec) =
      avg_length (filtered_df df spec) ∧
    messages_per_day (filtered_df (filtered_df df spec) spec) =
      messages_per_day (filtered_df df spec) := by
  have h : filtered_df (filtered_df df spec) spec = filtered_df df spec := by
    unfold filtered_df
    exact List.filter_eq_self.mpr fun a ha => (List.mem_filter.mp ha).2
  exact ⟨h, by rw [h], by rw [h], by rw [h], by rw [h]⟩

/-- Claim C7, confirmed: selecting type `"All"` filters exactly as the
mask with the type conjunct omitted; selecting author `"All"` as the mask
with the author conjunct omitted; and an empty search string as the mask
with the search conjunct omitted. -/
theorem C7_confirmed (df : List Row) (spec : FilterSpec) :
    (spec.selectedType = "All" →
      filtered_df df spec = df.filter (maskNoType spec)) ∧
    (spec.selectedAuthor = "All" →
      filtered_df df spec = df.filter (maskNoAuthor spec)) ∧
    (spec.searchTerm = "" →
      filtered_df df spec = df.filter (maskNoSearch spec)) := by
  refine ⟨fun h => ?_, fun h => ?_, fun h => ?_⟩ <;>
  · unfold filtered_df
    apply List.filter_congr
    intro row _
    apply Bool.eq_iff_iff.mpr
    simp [mask, maskNoType, maskNoAuthor, maskNoSearch, h, bne_iff_ne]

/-- Witness for `C7_confirmed` at a spec with all three optional
constraints inactive at once. -/
theorem C7_witness :
    filtered_df [row1, row2] specAll = [row1, row2].filter (maskNoType specAll) ∧
    filtered_df [row1, row2] specAll = [row1, row2].filter (maskNoAuthor specAll) ∧
    filtered_df [row1, row2] specAll = [row1, row2].filter (maskNoSearch specAll) :=
  ⟨(C7_confirmed [row1, row2] specAll).1 rfl,
   (C7_confirmed [row1, row2] specAll).2.1 rfl,
   (C7_confirmed [row1, row2] specAll).2.2 rfl⟩

/-- Claim C8, confirmed: an inverted date range (start_date > end_date)
makes the date conjunct unsatisfiable, so filtering yields the empty
subset — nothing in the code enforces start ≤ end or raises. -/
theorem C8_confirmed (df : List Row) (spec : FilterSpec)
    (h : spec.endDate < spec.startDate) :
    filtered_df df spec = [] := by
  unfold filtered_df
  rw [List.filter_eq_nil_iff]
  intro row _
  rw [mask_eq_conds]
  have hd : dateCond spec row = false := by
    unfold dateCond
    simp only [Bool.and_eq_false_iff, decide_eq_false_iff_not, not_le]
    omega
  simp [hd]

/-- Witness for `C8_confirmed` on a nonempty table and an inverted
range. -/
theorem C8_witness :
    filtered_df [row1, row2]
      { startDate := 19724, endDate := 19723, selectedType := "All",
        selectedAuthor := "All", searchTerm := "" } = [] :=
  C8_confirmed [row1, row2]
    { startDate := 19724, endDate := 19723, selectedType := "All",
      selectedAuthor := "All", searchTerm := "" } (by decide)

/-- Claim C9, confirmed: when normalization succeeds but drops every row
(for example, every timestamp unparsable), the resulting table is empty
and the dashboard's min/max-date computation on it has no value — the
`none` modelling the NaT-induced fault — while on every nonempty table it
does produce dates; the post-normalization pipeline thus has an unstated
non-emptiness precondition. -/
theorem C9_confirmed (records : List RawRecord) (df2 : List Row)
    (h : ∀ r ∈ records, parseTs r.timestamp = none) (h2 : df2 ≠ []) :
    convert_to_df records = some [] ∧
    min_date [] = none ∧ max_date [] = none ∧
    (min_date df2).isSome ∧ (max_date df2).isSome := by
  refine ⟨convert_all_unparsable records h, rfl, rfl, ?_, ?_⟩
  · unfold min_date
    rw [Option.isSome_map']
    apply colMin_isSome
    simpa using h2
  · unfold max_date
    rw [Option.isSome_map']
    apply colMax_isSome
    simpa using h2

/-- Witness for `C9_confirmed`: an all-unparsable input and a nonempty
table. -/
theorem C9_witness :
    convert_to_df [badRec] = some [] ∧
    min_date [] = none ∧ max_date [] = none ∧
    (min_date [row1]).isSome ∧ (max_date [row1]).isSome :=
  C9_confirmed [badRec] [row1] (by decide) (by decide)

/-- Claim C10, confirmed: the filtered subset is a sublist of the
normalized table — its rows appear in their original relative order, each
occurrence at most as often as in the table — and, filtering being a pure
function, the table itself is untouched. -/
theorem C10_confirmed (df : List Row) (spec : FilterSpec) :
    (filtered_df df spec).Sublist df ∧
    ∀ row : Row, (filtered_df df spec).count row ≤ df.count row :=
  ⟨List.filter_sublist df,
   fun row => List.Sublist.count_le (List.filter_sublist df) row⟩

end ChatAnalyzer
